import Mathlib

/-
Verification development for the WinHttpClient HTTP subsystem
(windows-native-toolkit/libraries/network/winhttp_client.{h,cpp}).

The C++ source is shallowly embedded: machine integers are modelled as
Nat/Int, C++ doubles as exact rationals, the opaque WinHTTP transport as
an explicit per-attempt outcome oracle, and the mutable client state as
explicit state passing.  The `static_cast<int>` applied to the backoff
product is modelled as truncation toward zero on rationals.
Value-initialized C++ aggregates are modelled by zero/empty defaults;
default-initialized locals whose members lack default member initializers
keep indeterminate values in those members, modelled as explicit
nondeterministic residue parameters.
-/

namespace Network

/-- HTTP methods, from `enum class HttpMethod` in winhttp_client.h. -/
inductive HttpMethod where
  | GET | POST | PUT | DELETE | PATCH | HEAD | OPTIONS
deriving DecidableEq, Repr

/-- Request descriptor, from `struct HttpRequestConfig` (defaults included). -/
structure HttpRequestConfig where
  url : String := ""
  method : HttpMethod := .GET
  userAgent : String := "WinUI3App/1.0"
  contentType : String := "application/json"
  body : String := ""
  headers : List (String × String) := []
  timeoutMs : ℕ := 30000
  enableCompression : Bool := true
  enableKeepAlive : Bool := true
  maxRedirects : ℕ := 5
deriving DecidableEq, Repr

instance : Inhabited HttpRequestConfig := ⟨{}⟩

/-- Response record, from `struct HttpResponse`.  A value-initialized
`HttpResponse{}` zero-initializes every field, which the defaults model.
`responseTimeMs` carries `responseTime` in milliseconds. -/
structure HttpResponse where
  statusCode : ℕ := 0
  statusText : String := ""
  body : String := ""
  headers : List (String × String) := []
  responseTimeMs : ℚ := 0
  contentLength : ℕ := 0
  success : Bool := false
deriving DecidableEq, Repr

instance : Inhabited HttpResponse := ⟨{}⟩

/-- `WinHttpClient::IsSuccessStatusCode`: 200 ≤ code < 300. -/
def IsSuccessStatusCode (statusCode : ℕ) : Bool :=
  decide (200 ≤ statusCode ∧ statusCode < 300)

/-- Outcome of one transport round trip inside `ProcessRequest`: the send
can fail, the receive can fail, or a status line arrives.  The function's
local `HttpResponse response;` is default-initialized and `statusCode` has
no default member initializer, so on a failed send or receive the returned
status code is whatever the stack held; that indeterminate residue is
modelled as the nondeterministic `junkStatus` carried by the failure
outcome. -/
inductive TransportOutcome where
  | sendFail (junkStatus : ℕ)
  | receiveFail (junkStatus : ℕ)
  | responded (statusCode : ℕ) (statusText : String) (body : String)
deriving DecidableEq, Repr

/-- `WinHttpClient::ProcessRequest`, with the WinHTTP calls abstracted into
a `TransportOutcome`.  A failed send or receive returns the local
default-initialized response with only a diagnostic `statusText` set:
`success` and `contentLength` have member initializers (false, 0) and the
string/vector members default-construct empty, but `statusCode` has no
initializer and so keeps its indeterminate stack value `junkStatus`.  A
received status line fills code, text, body, `contentLength` and derives
`success`. -/
def ProcessRequest : TransportOutcome → HttpResponse
  | .sendFail junkStatus =>
      { statusCode := junkStatus, statusText := "Failed to send request" }
  | .receiveFail junkStatus =>
      { statusCode := junkStatus, statusText := "Failed to receive response" }
  | .responded code text body =>
      { statusCode := code
        statusText := text
        body := body
        contentLength := body.length
        success := IsSuccessStatusCode code }

/-- What one iteration of the `SendRequestWithRetry` loop runs into before
or during its transport round trip: URL parse failure, connection acquire
failure, request-handle creation failure, a thrown exception, or a
completed `ProcessRequest` call. -/
inductive AttemptStep where
  | parseFail
  | connFail
  | openReqFail
  | exn (msg : String)
  | transport (t : TransportOutcome)
deriving DecidableEq, Repr

/-- Retry parameters, from `struct RetryConfig` (defaults included).
`backoffMultiplier` is a C++ double, modelled as an exact rational. -/
structure RetryConfig where
  maxRetries : ℕ := 3
  initialDelayMs : ℕ := 1000
  backoffMultiplier : ℚ := 2
  retryableStatusCodes : List ℕ := [500, 502, 503]
deriving DecidableEq, Repr

/-- The client's retry configuration; `m_retryConfig` is never reassigned,
so it always holds the defaults. -/
def defaultRetryConfig : RetryConfig := {}

/-- `static_cast<int>` on a real value: truncation toward zero. -/
def cppIntCast (q : ℚ) : ℤ :=
  if 0 ≤ q then ⌊q⌋ else ⌈q⌉

/-- The backoff sleep constructed before retry `k+1`:
`static_cast<int>(initialDelay.count() * pow(backoffMultiplier, retryCount))`. -/
def backoffDelay (cfg : RetryConfig) (retryCount : ℕ) : ℤ :=
  cppIntCast ((cfg.initialDelayMs : ℚ) * cfg.backoffMultiplier ^ retryCount)

/-- Observable result of `SendRequestWithRetry`: the returned response,
the number of loop iterations entered (= transport attempts performed),
and the argument of each `sleep_for` call in order. -/
structure RetryResult where
  response : HttpResponse
  attempts : ℕ
  sleeps : List ℤ
deriving DecidableEq, Repr

/-- The `while (retryCount <= maxRetries)` loop of
`WinHttpClient::SendRequestWithRetry`.  `response` is the accumulator
declared before the loop: pre-transport failures overwrite only its
`statusText` and break; a completed `ProcessRequest` replaces it wholesale.
After a completed attempt the loop stops on success or on
`retryCount >= maxRetries`, stops when the status code is not retryable,
and otherwise sleeps `backoffDelay cfg retryCount` and re-enters with
`retryCount + 1`. -/
def sendRetryGo (cfg : RetryConfig) (att : ℕ → AttemptStep)
    (retryCount : ℕ) (response : HttpResponse) : RetryResult :=
  match att retryCount with
  | .parseFail =>
      { response := { response with statusText := "Failed to parse URL" }
        attempts := retryCount + 1, sleeps := [] }
  | .connFail =>
      { response := { response with statusText := "Failed to get connection" }
        attempts := retryCount + 1, sleeps := [] }
  | .openReqFail =>
      { response := { response with statusText := "Failed to create request" }
        attempts := retryCount + 1, sleeps := [] }
  | .exn msg =>
      { response := { response with statusText := "Exception: " ++ msg }
        attempts := retryCount + 1, sleeps := [] }
  | .transport t =>
      let r := ProcessRequest t
      if hstop : r.success = true ∨ cfg.maxRetries ≤ retryCount then
        { response := r, attempts := retryCount + 1, sleeps := [] }
      else if r.statusCode ∈ cfg.retryableStatusCodes then
        let rest := sendRetryGo cfg att (retryCount + 1) r
        { rest with sleeps := backoffDelay cfg retryCount :: rest.sleeps }
      else
        { response := r, attempts := retryCount + 1, sleeps := [] }
termination_by cfg.maxRetries - retryCount
decreasing_by
  simp only [not_or, not_le] at hstop
  omega

/-- `WinHttpClient::SendRequestWithRetry`: run the retry loop from
`retryCount = 0` with a default-constructed response accumulator. -/
def SendRequestWithRetry (cfg : RetryConfig) (att : ℕ → AttemptStep) : RetryResult :=
  sendRetryGo cfg att 0 {}

/-- A pooled connection: the opaque `HINTERNET` handle tagged (as ghost
state, for specification only) with the host and port that
`WinHttpConnect` was called with when it was opened. -/
structure PooledConnection where
  handle : ℕ
  host : String
  port : ℕ
deriving DecidableEq, Repr

/-- `struct ConnectionPool` plus book-keeping: `connections` is the FIFO
`std::queue<HINTERNET>` (front = head of the list), `currentConnections`
and `maxConnections` its counters (default capacity 10).  `closedConns`
records handles passed to `WinHttpCloseHandle`, and `nextHandle` supplies
fresh handles for `WinHttpConnect`. -/
structure PoolState where
  connections : List PooledConnection := []
  currentConnections : ℕ := 0
  maxConnections : ℕ := 10
  closedConns : List PooledConnection := []
  nextHandle : ℕ := 1
deriving DecidableEq, Repr

/-- `WinHttpClient::GetConnection(host, port)`: if the pool queue is
nonempty, pop its front (whatever host it was opened against) and
decrement `currentConnections`; otherwise open a fresh connection to the
requested host and port via `WinHttpConnect`. -/
def GetConnection (s : PoolState) (host : String) (port : ℕ) :
    PooledConnection × PoolState :=
  match s.connections with
  | c :: rest =>
      (c, { s with connections := rest
                   currentConnections := s.currentConnections - 1 })
  | [] =>
      (⟨s.nextHandle, host, port⟩, { s with nextHandle := s.nextHandle + 1 })

/-- `WinHttpClient::ReturnConnection(hConnect)`: a null handle is ignored;
otherwise the connection is pushed onto the back of the queue and
`currentConnections` incremented when `currentConnections < maxConnections`,
else the handle is closed immediately. -/
def ReturnConnection (s : PoolState) (hConnect : Option PooledConnection) : PoolState :=
  match hConnect with
  | none => s
  | some c =>
      if s.currentConnections < s.maxConnections then
        { s with connections := s.connections ++ [c]
                 currentConnections := s.currentConnections + 1 }
      else
        { s with closedConns := c :: s.closedConns }

/-- One pool operation: an acquire for some host/port, or a release of a
(possibly null) connection. -/
inductive PoolOp where
  | acquire (host : String) (port : ℕ)
  | release (hConnect : Option PooledConnection)
deriving DecidableEq, Repr

/-- Effect of one pool operation on the pool state (the connection an
acquire hands out is dropped: only the pool's evolution matters here). -/
def poolStep (s : PoolState) : PoolOp → PoolState
  | .acquire host port => (GetConnection s host port).2
  | .release hConnect => ReturnConnection s hConnect

/-- Run a sequence of pool operations. -/
def runPool (s : PoolState) (ops : List PoolOp) : PoolState :=
  ops.foldl poolStep s

/-- The empty pool with capacity `maxConn`, as constructed at client start. -/
def emptyPool (maxConn : ℕ) : PoolState :=
  { maxConnections := maxConn }

/-- `struct PerformanceStats` (the atomic counters; `startTime` is kept
outside, as the elapsed time is passed explicitly where needed). -/
structure PerformanceStats where
  totalRequests : ℕ := 0
  successfulRequests : ℕ := 0
  failedRequests : ℕ := 0
  totalBytes : ℕ := 0
  averageResponseTime : ℚ := 0
deriving DecidableEq, Repr

/-- The zeroed statistics the client starts with. -/
def initialStats : PerformanceStats := {}

/-- `WinHttpClient::UpdatePerformanceStats`: increment `totalRequests`
first, bump the success or failure counter, add the content length, and
recompute the running mean as
`(currentAvg * (totalRequests - 1) + responseTime.count()) / totalRequests`
with the already-incremented `totalRequests`. -/
def UpdatePerformanceStats (s : PerformanceStats) (response : HttpResponse)
    (responseTimeMs : ℚ) : PerformanceStats :=
  let total := s.totalRequests + 1
  { totalRequests := total
    successfulRequests := s.successfulRequests + (if response.success then 1 else 0)
    failedRequests := s.failedRequests + (if response.success then 0 else 1)
    totalBytes := s.totalBytes + response.contentLength
    averageResponseTime :=
      (s.averageResponseTime * ((total - 1 : ℕ) : ℚ) + responseTimeMs) / (total : ℚ) }

/-- `struct PerformanceMetrics`, the snapshot returned by
`GetPerformanceMetrics`. -/
structure PerformanceMetrics where
  totalRequests : ℕ := 0
  successfulRequests : ℕ := 0
  failedRequests : ℕ := 0
  totalBytes : ℕ := 0
  averageResponseTime : ℚ := 0
  requestsPerSecond : ℚ := 0
  successRate : ℚ := 0
deriving DecidableEq, Repr

/-- `WinHttpClient::GetPerformanceMetrics`: the local
`PerformanceMetrics metrics;` is default-initialized and the struct has no
member initializers, so every field holds an indeterminate value until
assigned.  The five counters are assigned unconditionally, but
`requestsPerSecond` is assigned only when the elapsed whole seconds since
start are positive and `successRate` only when `totalRequests > 0`; in the
unguarded cases the returned field is whatever the stack held, modelled as
the nondeterministic residues `junkRps` and `junkRate`. -/
def GetPerformanceMetrics (s : PerformanceStats) (elapsedSeconds : ℕ)
    (junkRps junkRate : ℚ) : PerformanceMetrics :=
  { totalRequests := s.totalRequests
    successfulRequests := s.successfulRequests
    failedRequests := s.failedRequests
    totalBytes := s.totalBytes
    averageResponseTime := s.averageResponseTime
    requestsPerSecond :=
      if 0 < elapsedSeconds then (s.totalRequests : ℚ) / (elapsedSeconds : ℚ)
      else junkRps
    successRate :=
      if 0 < s.totalRequests then
        (s.successfulRequests : ℚ) / (s.totalRequests : ℚ) * 100
      else junkRate }

/-- `struct CacheEntry`: key, response snapshot, creation timestamp and
time-to-live (times in abstract milliseconds). -/
structure CacheEntry where
  key : String
  response : HttpResponse
  timestamp : ℕ
  ttl : ℕ
deriving DecidableEq, Repr

/-- The response cache, `m_cache`: entries looked up by key (most recent
insertion for a key found first). -/
def ResponseCache := List CacheEntry

/-- Modelled from the spec: `WinHttpClient::GetCachedResponse` is declared
in winhttp_client.h but its definition is absent from the repository, so
it is taken from the spec's words — `get(key)` returns the cached
ResponseRecord iff an entry exists and `now − timestamp < ttl`, otherwise
it is a miss.  The lookup is a pure function of the cache: it performs no
Transport call. -/
def GetCachedResponse (cache : ResponseCache) (key : String) (now : ℕ) :
    Option HttpResponse :=
  match cache.find? (fun e => e.key = key) with
  | some e => if now - e.timestamp < e.ttl then some e.response else none
  | none => none

/-- Modelled from the spec: `WinHttpClient::SetCachedResponse` is declared
in winhttp_client.h but its definition is absent from the repository, so
it is taken from the spec's words — `put(key, response, ttl)`
inserts/replaces unconditionally, stamping the entry with the current
time. -/
def SetCachedResponse (cache : ResponseCache) (key : String)
    (response : HttpResponse) (now : ℕ) (ttl : ℕ) : ResponseCache :=
  (⟨key, response, now, ttl⟩ : CacheEntry) :: cache.filter (fun e => e.key ≠ key)

/-- `std::future::get` on the store of resolved batch futures: look up the
result recorded for task index `i`. -/
def awaitFuture (store : List (ℕ × HttpResponse)) (i : ℕ) : Option HttpResponse :=
  (store.find? (fun p => p.fst = i)).map Prod.snd

/-- The client façade state: the `m_isInitialized` flag, the statistics,
the connection pool and the pending request queue (tasks as opaque ids). -/
structure ClientState where
  isInitialized : Bool := false
  stats : PerformanceStats := {}
  pool : PoolState := {}
  requestQueue : List ℕ := []
deriving DecidableEq, Repr

/-- What an entry point did with its callbacks. -/
inductive CallbackEffect where
  | errorCalled (msg : String)
  | noCallback
  | enqueued
  | streamStarted
deriving DecidableEq, Repr

/-- `WinHttpClient::SendRequest`: when not initialized, return a
value-initialized `HttpResponse{}` touching nothing; otherwise run
send-with-retry (transport abstracted by `att`, measured latency by
`responseTimeMs`) and fold its statistics update into the state. -/
def SendRequest (st : ClientState) (cfg : RetryConfig) (att : ℕ → AttemptStep)
    (responseTimeMs : ℚ) : HttpResponse × ClientState :=
  if st.isInitialized then
    let r := SendRequestWithRetry cfg att
    (r.response, { st with stats := UpdatePerformanceStats st.stats r.response responseTimeMs })
  else
    ({}, st)

/-- `WinHttpClient::SendRequestAsync`: when not initialized, invoke the
error callback with "Client not initialized" if one was supplied
(`hasOnError`) and do nothing else; otherwise push the task onto the
request queue and signal a worker. -/
def SendRequestAsync (st : ClientState) (taskId : ℕ) (hasOnError : Bool) :
    ClientState × CallbackEffect :=
  if st.isInitialized then
    ({ st with requestQueue := st.requestQueue ++ [taskId] }, .enqueued)
  else
    (st, if hasOnError then .errorCalled "Client not initialized" else .noCallback)

/-- `WinHttpClient::SendBatchRequests`: when not initialized, return
without invoking the completion callback (`none`).  Otherwise launch one
send-with-retry task per config in input order; the tasks resolve in the
completion order `σ` into a store of futures, which is then read back by
index 0..N−1 (`future.get()` in input order) and delivered as one list.
Per-request statistics updates happen inside the parallel tasks and are
abstracted into the attempt oracle `atts`. -/
def SendBatchRequests (st : ClientState) (configs : List HttpRequestConfig)
    (cfg : RetryConfig) (atts : ℕ → ℕ → AttemptStep) (σ : List ℕ) :
    ClientState × Option (List HttpResponse) :=
  if st.isInitialized then
    let store := σ.map (fun i => (i, (SendRequestWithRetry cfg (atts i)).response))
    (st, some ((List.range configs.length).map
      (fun i => (awaitFuture store i).getD {})))
  else
    (st, none)

/-- `WinHttpClient::SendStreamRequest`: when not initialized, invoke the
error callback with "Client not initialized" if supplied and do nothing
else; otherwise spawn the detached streaming thread. -/
def SendStreamRequest (st : ClientState) (hasOnError : Bool) :
    ClientState × CallbackEffect :=
  if st.isInitialized then
    (st, .streamStarted)
  else
    (st, if hasOnError then .errorCalled "Client not initialized" else .noCallback)

/-
Interleaving model of one worker thread running
`WinHttpClient::WorkerThreadFunction` concurrently with the thread running
`WinHttpClient::Shutdown`, under sequentially consistent semantics for the
atomic `isRunning` flag.  The queue mutex is modelled explicitly; the
condition-variable wait collapses to a transition enabled exactly when its
predicate holds under the mutex.  Program points of the worker:
`whileCheck` = the `while (isRunning)` test (no lock);
`lockAcquire` = constructing the `unique_lock`;
`waitPred`    = `condition.wait(lock, pred)` with
                `pred = !requests.empty() || !isRunning`;
`flagCheck`   = the `if (!isRunning) break` test under the mutex;
`dequeue`     = the `if (!requests.empty()) { front; pop; }` block;
`unlock`      = the end of the locked scope;
`runTask`     = `if (request) request()`;
`exited`      = the thread has returned.
Program points of the shutdown thread:
`clearFlag`   = `isRunning = false` (performed WITHOUT the queue mutex);
`notifyAll`   = `condition.notify_all()`;
`joinWorker`  = joining the worker thread (enabled once it has exited);
`joined`      = `Shutdown` past the joins.
-/

/-- Worker-thread program counter (see the model description above). -/
inductive WorkerPC where
  | whileCheck | lockAcquire | waitPred | flagCheck | dequeue | unlock
  | runTask | exited
deriving DecidableEq, Repr

/-- Shutdown-thread program counter (see the model description above). -/
inductive ShutdownPC where
  | clearFlag | notifyAll | joinWorker | joined
deriving DecidableEq, Repr

/-- A configuration of the queue-shutdown system: the atomic running flag,
the FIFO of pending tasks (by id), whether the worker holds the queue
mutex, the worker's local `request` slot, the list of executed tasks, and
both program counters. -/
structure QueueConfig where
  isRunning : Bool
  tasks : List ℕ
  mutexHeld : Bool
  current : Option ℕ
  executed : List ℕ
  wpc : WorkerPC
  spc : ShutdownPC
deriving DecidableEq, Repr

/-- One step of the worker thread, if enabled. -/
def workerStep (c : QueueConfig) : Option QueueConfig :=
  match c.wpc with
  | .whileCheck =>
      some (if c.isRunning then { c with wpc := .lockAcquire }
            else { c with wpc := .exited })
  | .lockAcquire =>
      if c.mutexHeld then none
      else some { c with mutexHeld := true, wpc := .waitPred }
  | .waitPred =>
      if !c.tasks.isEmpty || !c.isRunning then some { c with wpc := .flagCheck }
      else none
  | .flagCheck =>
      some (if c.isRunning then { c with wpc := .dequeue }
            else { c with wpc := .exited, mutexHeld := false })
  | .dequeue =>
      match c.tasks with
      | t :: rest => some { c with tasks := rest, current := some t, wpc := .unlock }
      | [] => some { c with wpc := .unlock }
  | .unlock =>
      some { c with mutexHeld := false, wpc := .runTask }
  | .runTask =>
      match c.current with
      | some t => some { c with executed := c.executed ++ [t], current := none,
                                wpc := .whileCheck }
      | none => some { c with wpc := .whileCheck }
  | .exited => none

/-- One step of the shutdown thread, if enabled.  `clearFlag` needs no
mutex: `Shutdown` writes the atomic flag without locking the queue. -/
def shutdownStep (c : QueueConfig) : Option QueueConfig :=
  match c.spc with
  | .clearFlag => some { c with isRunning := false, spc := .notifyAll }
  | .notifyAll => some { c with spc := .joinWorker }
  | .joinWorker =>
      if c.wpc = .exited then some { c with spc := .joined } else none
  | .joined => none

/-- One scheduled step: `true` runs the worker, `false` the shutdown
thread. -/
def queueStep (c : QueueConfig) (l : Bool) : Option QueueConfig :=
  if l then workerStep c else shutdownStep c

/-- Run a schedule (list of thread choices); `none` when some chosen step
is not enabled. -/
def runQueue (c : QueueConfig) : List Bool → Option QueueConfig
  | [] => some c
  | l :: ls =>
      match queueStep c l with
      | some c' => runQueue c' ls
      | none => none

/-- Initial configuration: the flag is up, one task (id 0) is enqueued but
not yet dequeued, the worker is at the top of its loop, and `Shutdown` is
about to clear the flag. -/
def queueInit : QueueConfig :=
  { isRunning := true, tasks := [0], mutexHeld := false, current := none,
    executed := [], wpc := .whileCheck, spc := .clearFlag }

/-- The property claimed of shutdown: along every schedule, a task still
in the queue at the moment the shutdown thread clears the running flag is
never executed afterwards. -/
def NoDequeueAfterClear : Prop :=
  ∀ (pre post : List Bool) (c c' c'' : QueueConfig) (t : ℕ),
    runQueue queueInit pre = some c →
    c.spc = .clearFlag →
    shutdownStep c = some c' →
    t ∈ c.tasks →
    runQueue c' post = some c'' →
    t ∉ c''.executed

/-- The pool invariant maintained by every single operation: the idle
queue length equals `currentConnections`, stays within `maxConn`, and the
capacity field itself is untouched. -/
theorem poolStep_inv (maxConn : ℕ) (s : PoolState) (op : PoolOp)
    (h1 : s.connections.length = s.currentConnections)
    (h2 : s.connections.length ≤ maxConn)
    (h3 : s.maxConnections = maxConn) :
    (poolStep s op).connections.length = (poolStep s op).currentConnections ∧
    (poolStep s op).connections.length ≤ maxConn ∧
    (poolStep s op).maxConnections = maxConn := by
  cases op with
  | acquire host port =>
      cases hc : s.connections with
      | nil => simp [poolStep, GetConnection, hc] at h1 h2 ⊢; omega
      | cons c rest =>
          simp [poolStep, GetConnection, hc] at h1 h2 ⊢
          omega
  | release hConnect =>
      cases hConnect with
      | none => simpa [poolStep, ReturnConnection] using ⟨h1, h2, h3⟩
      | some c =>
          by_cases hlt : s.currentConnections < s.maxConnections
          · simp [poolStep, ReturnConnection, hlt] at h2 ⊢
            omega
          · simp [poolStep, ReturnConnection, hlt]
            exact ⟨h1, h2, h3⟩

/-- The pool invariant holds after any sequence of pool operations. -/
theorem runPool_inv (maxConn : ℕ) (ops : List PoolOp) :
    ∀ s : PoolState,
      s.connections.length = s.currentConnections →
      s.connections.length ≤ maxConn →
      s.maxConnections = maxConn →
      (runPool s ops).connections.length = (runPool s ops).currentConnections ∧
      (runPool s ops).connections.length ≤ maxConn ∧
      (runPool s ops).maxConnections = maxConn := by
  induction ops with
  | nil => intro s h1 h2 h3; exact ⟨h1, h2, h3⟩
  | cons op rest ih =>
      intro s h1 h2 h3
      have h := poolStep_inv maxConn s op h1 h2 h3
      simpa [runPool] using ih (poolStep s op) h.1 h.2.1 h.2.2

/-- C3: starting from an empty pool, along any sequence of
GetConnection/ReturnConnection operations the number of idle pooled
connections never exceeds `maxConnections` and always equals the
`currentConnections` counter; a ReturnConnection performed at capacity
closes the connection instead of retaining it. -/
theorem c3_pool_capacity :
    (∀ (maxConn : ℕ) (ops : List PoolOp),
        (runPool (emptyPool maxConn) ops).connections.length =
          (runPool (emptyPool maxConn) ops).currentConnections ∧
        (runPool (emptyPool maxConn) ops).connections.length ≤ maxConn) ∧
    (∀ (s : PoolState) (c : PooledConnection),
        s.maxConnections ≤ s.currentConnections →
        ReturnConnection s (some c) =
          { s with closedConns := c :: s.closedConns }) := by
  constructor
  · intro maxConn ops
    have h := runPool_inv maxConn ops (emptyPool maxConn)
      (by simp [emptyPool]) (by simp [emptyPool]) (by simp [emptyPool])
    exact ⟨h.1, h.2.1⟩
  · intro s c hcap
    simp [ReturnConnection, Nat.not_lt.mpr hcap]

/-- C3 witness: a capacity-1 pool under a concrete operation sequence, and
one concrete at-capacity release that closes the connection. -/
theorem c3_pool_capacity_witness :
    ((runPool (emptyPool 1)
        [.release (some ⟨1, "alpha", 443⟩), .release (some ⟨2, "beta", 443⟩),
         .acquire "alpha" 443, .release (some ⟨3, "beta", 80⟩)]).connections.length =
      (runPool (emptyPool 1)
        [.release (some ⟨1, "alpha", 443⟩), .release (some ⟨2, "beta", 443⟩),
         .acquire "alpha" 443, .release (some ⟨3, "beta", 80⟩)]).currentConnections ∧
     (runPool (emptyPool 1)
        [.release (some ⟨1, "alpha", 443⟩), .release (some ⟨2, "beta", 443⟩),
         .acquire "alpha" 443, .release (some ⟨3, "beta", 80⟩)]).connections.length ≤ 1) ∧
    ReturnConnection
        { connections := [⟨1, "alpha", 443⟩], currentConnections := 1,
          maxConnections := 1 } (some ⟨2, "beta", 443⟩) =
      { connections := [⟨1, "alpha", 443⟩], currentConnections := 1,
        maxConnections := 1, closedConns := [⟨2, "beta", 443⟩] } :=
  ⟨c3_pool_capacity.1 1
      [.release (some ⟨1, "alpha", 443⟩), .release (some ⟨2, "beta", 443⟩),
       .acquire "alpha" 443, .release (some ⟨3, "beta", 80⟩)],
   c3_pool_capacity.2
      { connections := [⟨1, "alpha", 443⟩], currentConnections := 1,
        maxConnections := 1 } ⟨2, "beta", 443⟩ (by decide)⟩

/-- C2 counterexample: with an idle connection opened against host
"alpha" at the front of the pool and one opened against "beta" behind it,
`GetConnection` for host "beta" hands out the front connection, which was
opened against "alpha", not "beta" — refuting both that an idle connection
*for that host* is returned when one exists and that a connection handed
out for host H was opened against H. -/
theorem c2_claim_counterexample :
    (⟨2, "beta", 443⟩ : PooledConnection) ∈
      ({ connections := [⟨1, "alpha", 443⟩, ⟨2, "beta", 443⟩],
         currentConnections := 2 } : PoolState).connections ∧
    (GetConnection
        { connections := [⟨1, "alpha", 443⟩, ⟨2, "beta", 443⟩],
          currentConnections := 2 } "beta" 443).1.host = "alpha" ∧
    ("alpha" : String) ≠ "beta" := by
  refine ⟨by decide, rfl, by decide⟩

/-- C2 (amended): `GetConnection(host, port)` returns the front idle
connection regardless of the host it was opened against whenever the pool
is nonempty (decrementing the counter), and opens a fresh connection via
the Transport — against the requested host — only when the pool is empty. -/
theorem c2_acquire_amended (s : PoolState) (host : String) (port : ℕ) :
    (s.connections = [] →
        GetConnection s host port =
          (⟨s.nextHandle, host, port⟩, { s with nextHandle := s.nextHandle + 1 }) ∧
        (GetConnection s host port).1.host = host) ∧
    (∀ (c : PooledConnection) (rest : List PooledConnection),
        s.connections = c :: rest →
        GetConnection s host port =
          (c, { s with connections := rest,
                       currentConnections := s.currentConnections - 1 })) := by
  constructor
  · intro h
    simp [GetConnection, h]
  · intro c rest h
    simp [GetConnection, h]

/-- C2 witness: the amended acquire behavior at a concrete empty pool and
a concrete nonempty pool. -/
theorem c2_acquire_amended_witness :
    (GetConnection { nextHandle := 7 } "alpha" 443 =
        (⟨7, "alpha", 443⟩, { nextHandle := 8 }) ∧
      (GetConnection { nextHandle := 7 } "alpha" 443).1.host = "alpha") ∧
    GetConnection
        { connections := [⟨1, "gamma", 80⟩], currentConnections := 1 } "beta" 443 =
      (⟨1, "gamma", 80⟩, { connections := [], currentConnections := 0 }) :=
  ⟨(c2_acquire_amended { nextHandle := 7 } "alpha" 443).1 rfl,
   (c2_acquire_amended
      { connections := [⟨1, "gamma", 80⟩], currentConnections := 1 } "beta" 443).2
      ⟨1, "gamma", 80⟩ [] rfl⟩

/-- C5: `UpdatePerformanceStats` maintains the running mean by
`avg' = (avg × n + t) / (n + 1)` with `n` the count before the sample, and
concretely the samples 100, 300, 200 ms produce stored averages 100, 200,
200. -/
theorem c5_running_mean :
    (∀ (s : PerformanceStats) (r : HttpResponse) (t : ℚ),
        (UpdatePerformanceStats s r t).averageResponseTime =
          (s.averageResponseTime * (s.totalRequests : ℚ) + t) /
            ((s.totalRequests : ℚ) + 1)) ∧
    (UpdatePerformanceStats initialStats {} 100).averageResponseTime = 100 ∧
    (UpdatePerformanceStats (UpdatePerformanceStats initialStats {} 100) {}
        300).averageResponseTime = 200 ∧
    (UpdatePerformanceStats
        (UpdatePerformanceStats (UpdatePerformanceStats initialStats {} 100) {}
          300) {} 200).averageResponseTime = 200 := by
  refine ⟨fun s r t => ?_,
    by norm_num [UpdatePerformanceStats, initialStats],
    by norm_num [UpdatePerformanceStats, initialStats],
    by norm_num [UpdatePerformanceStats, initialStats]⟩
  simp only [UpdatePerformanceStats, Nat.add_sub_cancel]
  push_cast
  ring_nf

/-- C6: the code evaluated at the claim's edge cases.  On a fresh client
(`totalRequests = 0`) the guard at the `successRate` assignment is false,
so `GetPerformanceMetrics` returns whatever indeterminate value the
uninitialized local held (here residue 37) — not the 0 the claim states;
likewise `requestsPerSecond` before a whole second has elapsed.  When the
guards do hold, the derived fields equal the claimed formulas
(8 requests / 4 s = 2 req/s, 6 of 8 successful = 75). -/
theorem c6_uninitialized_metrics :
    initialStats.totalRequests = 0 ∧
    (GetPerformanceMetrics initialStats 5 11 37).successRate = 37 ∧
    (37 : ℚ) ≠ 0 ∧
    (GetPerformanceMetrics initialStats 0 11 37).requestsPerSecond = 11 ∧
    (GetPerformanceMetrics { totalRequests := 8, successfulRequests := 6 } 4 11
        37).requestsPerSecond = 2 ∧
    (GetPerformanceMetrics { totalRequests := 8, successfulRequests := 6 } 4 11
        37).successRate = 75 := by
  norm_num [GetPerformanceMetrics, initialStats]

/-- C4: after a put with time-to-live `ttl`, a get for that key within
`ttl` returns exactly the stored response record (bit-identical) without
any Transport call, and a get once `ttl` has elapsed is a miss. -/
theorem c4_cache_ttl (cache : ResponseCache) (key : String)
    (response : HttpResponse) (t0 ttl d : ℕ) :
    (d < ttl →
        GetCachedResponse (SetCachedResponse cache key response t0 ttl) key
          (t0 + d) = some response) ∧
    (ttl ≤ d →
        GetCachedResponse (SetCachedResponse cache key response t0 ttl) key
          (t0 + d) = none) := by
  constructor
  · intro h
    simp [GetCachedResponse, SetCachedResponse, List.find?, Nat.add_sub_cancel_left, h]
  · intro h
    simp [GetCachedResponse, SetCachedResponse, List.find?, Nat.add_sub_cancel_left,
      Nat.not_lt.mpr h]

/-- Auxiliary retry-loop lemma: if every attempt up to `maxRetries`
completes its transport round trip with a non-success response whose
status code (indeterminate or received) lies in the retryable set, then
from any loop position `rc` with `rc + d = maxRetries` the loop runs all
remaining attempts, sleeping the configured backoff before each retry,
and returns the last attempt's response. -/
theorem sendRetryGo_all_retryable (cfg : RetryConfig) (att : ℕ → AttemptStep)
    (ts : ℕ → TransportOutcome)
    (hatt : ∀ k, k ≤ cfg.maxRetries → att k = .transport (ts k))
    (hfail : ∀ k, k ≤ cfg.maxRetries → (ProcessRequest (ts k)).success = false)
    (hretry : ∀ k, k ≤ cfg.maxRetries →
        (ProcessRequest (ts k)).statusCode ∈ cfg.retryableStatusCodes) :
    ∀ (d rc : ℕ) (resp : HttpResponse), rc + d = cfg.maxRetries →
      sendRetryGo cfg att rc resp =
        { response := ProcessRequest (ts cfg.maxRetries)
          attempts := cfg.maxRetries + 1
          sleeps := (List.range' rc d).map (backoffDelay cfg) } := by
  intro d
  induction d with
  | zero =>
      intro rc resp h
      rw [sendRetryGo, hatt rc (by omega)]
      have hle : cfg.maxRetries ≤ rc := by omega
      simp only [dif_pos (Or.inr hle)]
      have hrc : rc = cfg.maxRetries := by omega
      simp [hrc, List.range']
  | succ d ih =>
      intro rc resp h
      rw [sendRetryGo, hatt rc (by omega)]
      have hne : ¬((ProcessRequest (ts rc)).success = true ∨
          cfg.maxRetries ≤ rc) := by
        simp only [not_or, not_le]
        exact ⟨by simp [hfail rc (by omega)], by omega⟩
      simp only [dif_neg hne]
      simp only [if_pos (hretry rc (by omega))]
      rw [ih (rc + 1) (ProcessRequest (ts rc)) (by omega)]
      simp [List.range']

/-- C1: with `maxRetries = n` and a transport answering every attempt with
a non-success status in the retryable set, `SendRequestWithRetry` performs
exactly `n + 1` attempts, sleeps
`static_cast<int>(initialDelay × backoffMultiplier^k)` between attempts
`k+1` and `k+2` for `k = 0, …, n−1`, and returns a response with
`success = false` carrying the last attempt's status code. -/
theorem c1_retry_exhaustion (cfg : RetryConfig) (att : ℕ → AttemptStep)
    (codes : ℕ → ℕ) (texts bodies : ℕ → String)
    (hatt : ∀ k, k ≤ cfg.maxRetries →
        att k = .transport (.responded (codes k) (texts k) (bodies k)))
    (hfail : ∀ k, k ≤ cfg.maxRetries → IsSuccessStatusCode (codes k) = false)
    (hretry : ∀ k, k ≤ cfg.maxRetries → codes k ∈ cfg.retryableStatusCodes) :
    (SendRequestWithRetry cfg att).attempts = cfg.maxRetries + 1 ∧
    (SendRequestWithRetry cfg att).sleeps =
      (List.range cfg.maxRetries).map (backoffDelay cfg) ∧
    (SendRequestWithRetry cfg att).response.success = false ∧
    (SendRequestWithRetry cfg att).response.statusCode = codes cfg.maxRetries ∧
    (SendRequestWithRetry cfg att).response.statusText = texts cfg.maxRetries := by
  have h := sendRetryGo_all_retryable cfg att
    (fun k => .responded (codes k) (texts k) (bodies k)) hatt
    (fun k hk => by simpa [ProcessRequest] using hfail k hk)
    (fun k hk => by simpa [ProcessRequest] using hretry k hk)
    cfg.maxRetries 0 {} (by omega)
  rw [SendRequestWithRetry, h]
  refine ⟨rfl, by rw [List.range_eq_range'], ?_, rfl, rfl⟩
  simpa [ProcessRequest] using hfail cfg.maxRetries le_rfl

/-- C1 witness: the default configuration (3 retries, 1000 ms initial
delay, multiplier 2) against a transport that answers 500 on every
attempt: 4 attempts, sleeps of 1000, 2000 and 4000 ms, and a failed final
response with status 500. -/
theorem c1_retry_exhaustion_witness :
    (SendRequestWithRetry defaultRetryConfig
        (fun _ => .transport (.responded 500 "Internal Server Error" ""))).attempts = 4 ∧
    (SendRequestWithRetry defaultRetryConfig
        (fun _ => .transport (.responded 500 "Internal Server Error" ""))).sleeps =
      [backoffDelay defaultRetryConfig 0, backoffDelay defaultRetryConfig 1,
       backoffDelay defaultRetryConfig 2] ∧
    (SendRequestWithRetry defaultRetryConfig
        (fun _ => .transport (.responded 500 "Internal Server Error" ""))).response.success
      = false ∧
    (SendRequestWithRetry defaultRetryConfig
        (fun _ => .transport (.responded 500 "Internal Server Error" ""))).response.statusCode
      = 500 := by
  have h := c1_retry_exhaustion defaultRetryConfig
    (fun _ => .transport (.responded 500 "Internal Server Error" ""))
    (fun _ => 500) (fun _ => "Internal Server Error") (fun _ => "")
    (fun _ _ => rfl)
    (fun _ _ => by show IsSuccessStatusCode 500 = false; decide)
    (fun _ _ => by show (500 : ℕ) ∈ [500, 502, 503]; decide)
  exact ⟨h.1, h.2.1, h.2.2.1, h.2.2.2.1⟩

/-- C7: the code evaluated at the claim's failure kinds.  A failed
connection acquire is terminal: one attempt, no sleeps, diagnostic text.
But for a failed send (or receive) the loop reaches the retryable-set
comparison with the response's *indeterminate* status code: when the
stack residue happens to equal 500 (in the default retryable set), the
client sleeps the full backoff ladder and performs all four attempts —
contradicting the claim's (and the spec's) "not retried, terminal"
behavior, which the code honors only when the residue is outside the
retryable set (e.g. 0). -/
theorem c7_garbage_retry :
    (SendRequestWithRetry defaultRetryConfig
        (fun _ => .transport (.sendFail 500))).attempts = 4 ∧
    (SendRequestWithRetry defaultRetryConfig
        (fun _ => .transport (.sendFail 500))).sleeps = [1000, 2000, 4000] ∧
    (SendRequestWithRetry defaultRetryConfig
        (fun _ => .transport (.sendFail 500))).response.statusText =
      "Failed to send request" ∧
    (SendRequestWithRetry defaultRetryConfig
        (fun _ => .transport (.sendFail 0))).attempts = 1 ∧
    (SendRequestWithRetry defaultRetryConfig
        (fun _ => .transport (.sendFail 0))).sleeps = [] ∧
    (SendRequestWithRetry defaultRetryConfig
        (fun _ => .transport (.receiveFail 503))).attempts = 4 ∧
    (SendRequestWithRetry defaultRetryConfig (fun _ => .connFail)).attempts = 1 ∧
    (SendRequestWithRetry defaultRetryConfig (fun _ => .connFail)).sleeps = [] ∧
    (SendRequestWithRetry defaultRetryConfig
        (fun _ => .connFail)).response.statusText = "Failed to get connection" := by
  have h500 := sendRetryGo_all_retryable defaultRetryConfig
    (fun _ => .transport (.sendFail 500)) (fun _ => .sendFail 500)
    (fun _ _ => rfl)
    (fun _ _ => by show (ProcessRequest (.sendFail 500)).success = false; rfl)
    (fun _ _ => by show (500 : ℕ) ∈ [500, 502, 503]; decide)
    3 0 {} rfl
  have h503 := sendRetryGo_all_retryable defaultRetryConfig
    (fun _ => .transport (.receiveFail 503)) (fun _ => .receiveFail 503)
    (fun _ _ => rfl)
    (fun _ _ => by show (ProcessRequest (.receiveFail 503)).success = false; rfl)
    (fun _ _ => by show (503 : ℕ) ∈ [500, 502, 503]; decide)
    3 0 {} rfl
  have h0 : SendRequestWithRetry defaultRetryConfig
      (fun _ => .transport (.sendFail 0)) =
      { response := ProcessRequest (.sendFail 0), attempts := 1, sleeps := [] } := by
    rw [SendRequestWithRetry, sendRetryGo]
    have hne : ¬((ProcessRequest (.sendFail 0)).success = true ∨
        defaultRetryConfig.maxRetries ≤ 0) := by decide
    have hni : (ProcessRequest (.sendFail 0)).statusCode ∉
        defaultRetryConfig.retryableStatusCodes := by decide
    simp only [dif_neg hne, if_neg hni]
  refine ⟨?_, ?_, ?_, ?_, ?_, ?_, ?_, ?_, ?_⟩
  · rw [SendRequestWithRetry, h500]; rfl
  · rw [SendRequestWithRetry, h500]
    norm_num [List.range', backoffDelay, cppIntCast, defaultRetryConfig]
  · rw [SendRequestWithRetry, h500]; rfl
  · rw [h0]
  · rw [h0]
  · rw [SendRequestWithRetry, h503]; rfl
  · rw [SendRequestWithRetry, sendRetryGo]
  · rw [SendRequestWithRetry, sendRetryGo]
  · rw [SendRequestWithRetry, sendRetryGo]

/-- C4 witness: a concrete put/get pair, hit at 2999 ms after the put and
miss at 3000 ms, with ttl 3000 ms. -/
theorem c4_cache_ttl_witness :
    GetCachedResponse
        (SetCachedResponse [] "GET http://h/a" { statusCode := 200, success := true }
          1000 3000) "GET http://h/a" (1000 + 2999) =
      some { statusCode := 200, success := true } ∧
    GetCachedResponse
        (SetCachedResponse [] "GET http://h/a" { statusCode := 200, success := true }
          1000 3000) "GET http://h/a" (1000 + 3000) = none :=
  ⟨(c4_cache_ttl [] "GET http://h/a" { statusCode := 200, success := true }
      1000 3000 2999).1 (by decide),
   (c4_cache_ttl [] "GET http://h/a" { statusCode := 200, success := true }
      1000 3000 3000).2 (by decide)⟩

/-- Reading back the future store: once a task index has been resolved
(it occurs in the completion order), `awaitFuture` returns exactly its
recorded result, independent of where in the completion order it was
resolved. -/
theorem awaitFuture_resolved (σ : List ℕ) (f : ℕ → HttpResponse) (i : ℕ)
    (h : i ∈ σ) :
    awaitFuture (σ.map (fun j => (j, f j))) i = some (f i) := by
  induction σ with
  | nil => cases h
  | cons j rest ih =>
      by_cases hj : j = i
      · subst hj
        rw [awaitFuture, List.map_cons, List.find?_cons_of_pos _ (by simp)]
        rfl
      · rcases List.mem_cons.mp h with h1 | h2
        · exact absurd h1.symm hj
        · rw [awaitFuture, List.map_cons, List.find?_cons_of_neg _ (by simp [hj])]
          exact ih h2

/-- `getD` on a map over `List.range`. -/
theorem rangeMap_getD (N i : ℕ) (h : i < N) (g : ℕ → HttpResponse)
    (d : HttpResponse) :
    ((List.range N).map g).getD i d = g i := by
  rw [List.getD_eq_getElem?_getD]
  simp [List.getElem?_map, List.getElem?_range, h]

/-- C9: for an initialized client and any completion order that resolves
every one of the N batch tasks, `SendBatchRequests` delivers to the
completion callback exactly one list of length N whose i-th element is the
send-with-retry result of the i-th input request — input order, not
completion order. -/
theorem c9_batch_order (st : ClientState) (configs : List HttpRequestConfig)
    (cfg : RetryConfig) (atts : ℕ → ℕ → AttemptStep) (σ : List ℕ)
    (hinit : st.isInitialized = true)
    (hσ : ∀ i, i < configs.length → i ∈ σ) :
    (SendBatchRequests st configs cfg atts σ).2 =
      some ((List.range configs.length).map
        (fun i => (SendRequestWithRetry cfg (atts i)).response)) ∧
    ∀ rs : List HttpResponse,
      (SendBatchRequests st configs cfg atts σ).2 = some rs →
      rs.length = configs.length ∧
      ∀ i, i < configs.length →
        rs.getD i {} = (SendRequestWithRetry cfg (atts i)).response := by
  have hmain : (SendBatchRequests st configs cfg atts σ).2 =
      some ((List.range configs.length).map
        (fun i => (SendRequestWithRetry cfg (atts i)).response)) := by
    simp only [SendBatchRequests, hinit, if_true]
    congr 1
    apply List.map_congr_left
    intro i hi
    rw [awaitFuture_resolved σ
      (fun j => (SendRequestWithRetry cfg (atts j)).response) i
      (hσ i (List.mem_range.mp hi))]
    rfl
  refine ⟨hmain, fun rs hrs => ?_⟩
  rw [hmain] at hrs
  obtain rfl : (List.range configs.length).map
      (fun i => (SendRequestWithRetry cfg (atts i)).response) = rs :=
    Option.some.inj hrs
  exact ⟨by simp, fun i hi => rangeMap_getD configs.length i hi _ {}⟩

/-- C9 witness: three requests resolved in completion order C, A, B are
still delivered as [resultA, resultB, resultC] (input order). -/
theorem c9_batch_order_witness :
    (SendBatchRequests { isInitialized := true } [{}, {}, {}] defaultRetryConfig
        (fun i _ => .transport (.responded (200 + i) "OK" "")) [2, 0, 1]).2 =
      some ((List.range 3).map
        (fun i => (SendRequestWithRetry defaultRetryConfig
          (fun _ => AttemptStep.transport
            (.responded (200 + i) "OK" ""))).response)) :=
  (c9_batch_order { isInitialized := true } [{}, {}, {}] defaultRetryConfig
    (fun i _ => .transport (.responded (200 + i) "OK" "")) [2, 0, 1] rfl
    (by decide)).1

/-- C10: every entry point called on an uninitialized client leaves the
whole client state (statistics counters, connection pool, request queue)
unchanged; `SendRequest` returns a value-initialized response
(`success = false`, `contentLength = 0`, empty body), `SendRequestAsync`
and `SendStreamRequest` invoke the error callback with
"Client not initialized" exactly when one is supplied, and
`SendBatchRequests` returns without invoking its completion callback. -/
theorem c10_uninitialized (st : ClientState) (cfg : RetryConfig)
    (att : ℕ → AttemptStep) (t : ℚ) (taskId : ℕ)
    (configs : List HttpRequestConfig) (atts : ℕ → ℕ → AttemptStep)
    (σ : List ℕ) (h : st.isInitialized = false) :
    SendRequest st cfg att t = ({}, st) ∧
    ({} : HttpResponse).success = false ∧
    ({} : HttpResponse).contentLength = 0 ∧
    ({} : HttpResponse).body = "" ∧
    SendRequestAsync st taskId true = (st, .errorCalled "Client not initialized") ∧
    SendRequestAsync st taskId false = (st, .noCallback) ∧
    SendBatchRequests st configs cfg atts σ = (st, none) ∧
    SendStreamRequest st true = (st, .errorCalled "Client not initialized") ∧
    SendStreamRequest st false = (st, .noCallback) := by
  simp [SendRequest, SendRequestAsync, SendBatchRequests, SendStreamRequest, h]

/-- C10 witness: the freshly constructed (never initialized) client under
each entry point. -/
theorem c10_uninitialized_witness :
    SendRequest {} defaultRetryConfig (fun _ => .parseFail) 5 = ({}, {}) ∧
    SendRequestAsync {} 42 true = ({}, .errorCalled "Client not initialized") ∧
    SendRequestAsync {} 42 false = ({}, .noCallback) ∧
    SendBatchRequests {} [{}] defaultRetryConfig (fun _ _ => .parseFail) [0] =
      ({}, none) ∧
    SendStreamRequest {} true = ({}, .errorCalled "Client not initialized") ∧
    SendStreamRequest {} false = ({}, .noCallback) := by
  have h := c10_uninitialized {} defaultRetryConfig (fun _ => .parseFail) 5 42
    [{}] (fun _ _ => .parseFail) [0] rfl
  exact ⟨h.1, h.2.2.2.2.1, h.2.2.2.2.2.1, h.2.2.2.2.2.2.1,
    h.2.2.2.2.2.2.2.1, h.2.2.2.2.2.2.2.2⟩

/-- C8 counterexample: the claimed property fails on a concrete schedule.
The worker passes its flag check (flag still up) while holding the queue
mutex; `Shutdown` then clears the flag — it writes the atomic without the
queue mutex — while task 0 is still enqueued and undequeued; the worker
nevertheless proceeds to dequeue and execute task 0. -/
theorem c8_claim_counterexample : ¬ NoDequeueAfterClear := by
  intro h
  exact h [true, true, true, true] [true, true, true]
    { isRunning := true, tasks := [0], mutexHeld := true, current := none,
      executed := [], wpc := .dequeue, spc := .clearFlag }
    { isRunning := false, tasks := [0], mutexHeld := true, current := none,
      executed := [], wpc := .dequeue, spc := .notifyAll }
    { isRunning := false, tasks := [], mutexHeld := false, current := none,
      executed := [0], wpc := .whileCheck, spc := .notifyAll }
    0 (by decide) rfl (by decide) (by decide) (by decide) (by decide)

/-- C8 (amended): the mechanism claims hold — a worker reaches its dequeue
point only directly from a flag check that observed the flag still up;
once a worker has exited (in particular after observing the cleared flag
at its flag check or loop head) no schedule lets it dequeue or execute
anything further; and `Shutdown`'s join completes only once the worker has
exited.  What fails is only the global no-late-dequeue property, because
the flag is cleared without the queue mutex. -/
theorem c8_shutdown_amended :
    (∀ c c' : QueueConfig, workerStep c = some c' → c'.wpc = .dequeue →
        c.wpc = .flagCheck ∧ c.isRunning = true) ∧
    (∀ (c : QueueConfig) (ls : List Bool) (c' : QueueConfig),
        c.wpc = .exited → runQueue c ls = some c' →
        c'.executed = c.executed ∧ c'.tasks = c.tasks ∧ c'.wpc = .exited) ∧
    (∀ c c' : QueueConfig, shutdownStep c = some c' → c'.spc = .joined →
        c.wpc = .exited) := by
  refine ⟨?_, ?_, ?_⟩
  · intro c c' hw hd
    cases hpc : c.wpc with
    | whileCheck =>
        by_cases hr : c.isRunning <;> simp [workerStep, hpc, hr] at hw <;>
          rw [← hw] at hd <;> simp at hd
    | lockAcquire =>
        by_cases hm : c.mutexHeld <;> simp [workerStep, hpc, hm] at hw
        rw [← hw] at hd; simp at hd
    | waitPred =>
        by_cases hcond : (!c.tasks.isEmpty || !c.isRunning) = true <;>
          simp only [workerStep, hpc, hcond, if_pos, if_neg] at hw <;>
          first
            | (rw [← Option.some.inj hw] at hd; simp at hd)
            | exact absurd hw (by simp [hcond])
    | flagCheck =>
        by_cases hr : c.isRunning
        · exact ⟨rfl, hr⟩
        · simp [workerStep, hpc, hr] at hw
          rw [← hw] at hd; simp at hd
    | dequeue =>
        cases ht : c.tasks <;> simp [workerStep, hpc, ht] at hw <;>
          rw [← hw] at hd <;> simp at hd
    | unlock =>
        simp [workerStep, hpc] at hw
        rw [← hw] at hd; simp at hd
    | runTask =>
        cases hcur : c.current <;> simp [workerStep, hpc, hcur] at hw <;>
          rw [← hw] at hd <;> simp at hd
    | exited => simp [workerStep, hpc] at hw
  · intro c ls
    induction ls generalizing c with
    | nil =>
        intro c' hx hr
        obtain rfl : c = c' := by simpa [runQueue] using hr
        exact ⟨rfl, rfl, hx⟩
    | cons l ls ih =>
        intro c' hx hr
        simp only [runQueue] at hr
        cases hq : queueStep c l with
        | none => rw [hq] at hr; cases hr
        | some c1 =>
            rw [hq] at hr
            have hpres : c1.executed = c.executed ∧ c1.tasks = c.tasks ∧
                c1.wpc = .exited := by
              cases l with
              | true => simp [queueStep, workerStep, hx] at hq
              | false =>
                  cases hspc : c.spc with
                  | clearFlag =>
                      simp [queueStep, shutdownStep, hspc] at hq
                      rw [← hq]; exact ⟨rfl, rfl, hx⟩
                  | notifyAll =>
                      simp [queueStep, shutdownStep, hspc] at hq
                      rw [← hq]; exact ⟨rfl, rfl, hx⟩
                  | joinWorker =>
                      simp [queueStep, shutdownStep, hspc, hx] at hq
                      rw [← hq]; exact ⟨rfl, rfl, rfl⟩
                  | joined => simp [queueStep, shutdownStep, hspc] at hq
            obtain ⟨e1, t1, w1⟩ := hpres
            have h := ih c1 c' w1 hr
            exact ⟨h.1.trans e1, h.2.1.trans t1, h.2.2⟩
  · intro c c' hs hj
    cases hspc : c.spc with
    | clearFlag =>
        simp [shutdownStep, hspc] at hs
        rw [← hs] at hj; simp at hj
    | notifyAll =>
        simp [shutdownStep, hspc] at hs
        rw [← hs] at hj; simp at hj
    | joinWorker =>
        by_cases hw : c.wpc = .exited
        · exact hw
        · simp [shutdownStep, hspc, hw] at hs
    | joined => simp [shutdownStep, hspc] at hs

/-- C8 witness: the amended facts at concrete configurations — a flag
check that observed the flag up precedes a concrete dequeue step; an
exited worker stays exited with executed list and queue frozen along a
concrete schedule; and a concrete join step requires the worker to have
exited. -/
theorem c8_shutdown_amended_witness :
    (({ isRunning := true, tasks := [3], mutexHeld := true, current := none,
        executed := [], wpc := .flagCheck, spc := .clearFlag } :
          QueueConfig).wpc = .flagCheck ∧
      ({ isRunning := true, tasks := [3], mutexHeld := true, current := none,
         executed := [], wpc := .flagCheck, spc := .clearFlag } :
           QueueConfig).isRunning = true) ∧
    (({ isRunning := false, tasks := [5], mutexHeld := false, current := none,
        executed := [7], wpc := .exited, spc := .notifyAll } :
          QueueConfig).executed =
        ({ isRunning := true, tasks := [5], mutexHeld := false, current := none,
           executed := [7], wpc := .exited, spc := .clearFlag } :
             QueueConfig).executed ∧
      ({ isRunning := false, tasks := [5], mutexHeld := false, current := none,
         executed := [7], wpc := .exited, spc := .notifyAll } :
           QueueConfig).tasks =
        ({ isRunning := true, tasks := [5], mutexHeld := false, current := none,
           executed := [7], wpc := .exited, spc := .clearFlag } :
             QueueConfig).tasks ∧
      ({ isRunning := false, tasks := [5], mutexHeld := false, current := none,
         executed := [7], wpc := .exited, spc := .notifyAll } :
           QueueConfig).wpc = .exited) ∧
    ({ isRunning := false, tasks := [], mutexHeld := false, current := none,
       executed := [], wpc := .exited, spc := .joinWorker } :
         QueueConfig).wpc = .exited :=
  ⟨c8_shutdown_amended.1
      { isRunning := true, tasks := [3], mutexHeld := true, current := none,
        executed := [], wpc := .flagCheck, spc := .clearFlag }
      { isRunning := true, tasks := [3], mutexHeld := true, current := none,
        executed := [], wpc := .dequeue, spc := .clearFlag }
      (by decide) rfl,
   c8_shutdown_amended.2.1
      { isRunning := true, tasks := [5], mutexHeld := false, current := none,
        executed := [7], wpc := .exited, spc := .clearFlag }
      [false]
      { isRunning := false, tasks := [5], mutexHeld := false, current := none,
        executed := [7], wpc := .exited, spc := .notifyAll }
      rfl (by decide),
   c8_shutdown_amended.2.2
      { isRunning := false, tasks := [], mutexHeld := false, current := none,
        executed := [], wpc := .exited, spc := .joinWorker }
      { isRunning := false, tasks := [], mutexHeld := false, current := none,
        executed := [], wpc := .exited, spc := .joined }
      (by decide) rfl⟩

end Network

